import Mathlib

/-!
Shallow embedding of the c-ast extraction engine (src/src/main.rs).

The program is a single-pass visitor over a parsed C translation unit that
builds two catalogs: struct tag -> ordered field names (`struct_types`),
and (optional current tag, declared name) -> value (`values`).  The AST
input types below model the lang_c interface the visitor reads (struct
type nodes with an optional tag identifier, struct fields with declarator
lists, init declarators with an optional expression/list initializer,
expressions distinguishing constants and string literals from everything
else); the visitor state, the value types `MyStructType`, `MyValue`,
`MyStruct`, `MyExpression`, and the functions `transform`, `fill`,
`visit_struct_type`, `visit_struct_field`, `visit_init_declarator` are
translated from the Rust source.  Rust `HashMap` is modelled as an
association list with lookup (`alFind`) and insert-or-replace (`alSet`);
`log::warn!` is modelled as a warning counter; `panic!` as an `Except`
error that aborts the run.
-/

namespace CAst

/-- Interface model of lang_c `Constant`: the visitor reads the `number`
text of integer/float constants and the text of character constants. -/
inductive Constant where
  | Integer (number : String)
  | Float (number : String)
  | Character (text : String)
deriving Repr

/-- Interface model of lang_c `Expression`: the visitor distinguishes
constants and string literals from every other form.  Other forms
(`Call`, `Identifier`, ...) are carried with the debug rendering of their
payload, matching how the program only ever uses them through
`format!("{:?}", _)`. -/
inductive Expression where
  | Constant (c : CAst.Constant)
  | StringLiteral (parts : List String)
  | Identifier (payload : String)
  | Call (payload : String)
  | BinaryOperator (payload : String)
deriving Repr

/-- Simplified expression type `MyExpression` from the source. -/
inductive MyExpression where
  | Integer (text : String)
  | Float (text : String)
  | String (text : String)
  | StringLiteral (parts : List String)
  | Other (debug : String)
deriving DecidableEq, Repr

/-- Debug rendering of a `Constant`, as Rust's `{:?}` would produce. -/
def debugConstant : Constant → String
  | .Integer b => "Integer(" ++ b ++ ")"
  | .Float b => "Float(" ++ b ++ ")"
  | .Character b => "Character(" ++ b ++ ")"

/-- Debug rendering of an `Expression`, as Rust's `{:?}` (`format!`) would
produce: the variant name wrapping the payload's rendering. -/
def debugFmt : Expression → String
  | .Constant c => "Constant(" ++ debugConstant c ++ ")"
  | .StringLiteral a => "StringLiteral(" ++ toString a ++ ")"
  | .Identifier p => "Identifier(" ++ p ++ ")"
  | .Call p => "Call(" ++ p ++ ")"
  | .BinaryOperator p => "BinaryOperator(" ++ p ++ ")"

/-- `transform` from the source: simplify an expression node. -/
def transform (expr : Expression) : MyExpression :=
  match expr with
  | .Constant a =>
    match a with
    | .Integer b => .Integer b
    | .Float b => .Float b
    | .Character b => .String b
  | .StringLiteral a => .StringLiteral a
  | a => .Other (debugFmt a)

/-- Interface model of lang_c `Designator` (designated initializers);
the visitor never reads designators. -/
inductive Designator where
  | Index (e : Expression)
  | Member (name : String)
deriving Repr

mutual
/-- Interface model of lang_c `Initializer`: a single expression or a
brace-initializer list of items. -/
inductive Initializer where
  | Expression (e : CAst.Expression)
  | List (items : InitializerItems)
/-- The item list of a brace initializer; each item is a lang_c
`InitializerListItem`, holding its designation list and its initializer. -/
inductive InitializerItems where
  | nil
  | cons (designation : List Designator) (ini : Initializer) (rest : InitializerItems)
end

/-- Interface model of lang_c `DeclaratorKind`. -/
inductive DeclaratorKind where
  | Abstract
  | Identifier (name : String)
  | Declarator (inner : DeclaratorKind)
deriving DecidableEq, Repr

/-- Interface model of lang_c `Declarator`: the visitor only reads its
`kind`. -/
structure Declarator where
  kind : DeclaratorKind
deriving DecidableEq, Repr

/-- Interface model of lang_c `StructDeclarator`: an optional declarator
(the bit width, which the visitor never reads, is omitted). -/
structure StructDeclarator where
  declarator : Option Declarator
deriving DecidableEq, Repr

/-- Interface model of lang_c `StructField`: the declarator list the
visitor iterates over. -/
structure StructField where
  declarators : List StructDeclarator
deriving DecidableEq, Repr

/-- Interface model of lang_c `StructType`: the optional tag identifier
the visitor reads. -/
structure StructType where
  identifier : Option String
deriving DecidableEq, Repr

/-- Interface model of lang_c `InitDeclarator`: a declarator and an
optional initializer. -/
structure InitDeclarator where
  declarator : Declarator
  initializer : Option Initializer

/-- `MyStructType` from the source: a struct tag and its ordered field
names. -/
structure MyStructType where
  name : String
  fields : List String
deriving DecidableEq, Repr

/-- `MyStructType::new` from the source. -/
def MyStructType.new (name : String) : MyStructType :=
  { name := name, fields := [] }

/-- `MyStruct` from the source: a struct instance with its ordered
(field name, expression) bindings. -/
structure MyStruct where
  typ : String
  name : String
  values : List (String × MyExpression)
deriving DecidableEq, Repr

/-- `MyValue` from the source. -/
inductive MyValue where
  | Struct (s : MyStruct)
  | Scalar (name : String) (value : MyExpression)
deriving DecidableEq, Repr

/-- `MyValue::new_struct` from the source. -/
def MyValue.new_struct (typ : String) (name : String) : MyValue :=
  .Struct { typ := typ, name := name, values := [] }

/-- `MyValue::new_scalar` from the source. -/
def MyValue.new_scalar (name : String) (value : MyExpression) : MyValue :=
  .Scalar name value

/-- Association-list lookup, modelling `HashMap` lookup / `entry`
inspection. -/
def alFind {α β : Type} [DecidableEq α] : List (α × β) → α → Option β
  | [], _ => none
  | (k, v) :: rest, key => if k = key then some v else alFind rest key

/-- Association-list insert-or-replace, modelling `HashMap` insertion and
in-place mutation through an `entry`. -/
def alSet {α β : Type} [DecidableEq α] : List (α × β) → α → β → List (α × β)
  | [], key, v => [(key, v)]
  | (k, w) :: rest, key, v =>
    if k = key then (k, v) :: rest else (k, w) :: alSet rest key v

/-- The visitor state `MyVisitor` from the source: the current struct tag
context, the struct type catalog, the value catalog, and a counter of
`log::warn!` diagnostics emitted. -/
structure MyVisitor where
  cur_struct : Option String
  struct_types : List (String × MyStructType)
  values : List ((Option String × String) × MyValue)
  warnings : Nat
deriving DecidableEq, Repr

/-- `MyVisitor::new` from the source: empty catalogs, no current tag. -/
def MyVisitor.new : MyVisitor :=
  { cur_struct := none, struct_types := [], values := [], warnings := 0 }

/-- The abort conditions (`panic!` sites) of `visit_init_declarator`. -/
inductive Panic where
  | ExpectedIdentifier (kind : DeclaratorKind)
  | StructTypeNotFound (tag : String)
deriving DecidableEq, Repr

mutual
/-- `fill` from the source: append one `(fname, transform leaf)` binding
per leaf expression of the initializer, recursing into nested lists with
the same field name. -/
def fill (acc : List (String × MyExpression)) (fname : String)
    (ini : Initializer) : List (String × MyExpression) :=
  match ini with
  | .Expression e => acc ++ [(fname, transform e)]
  | .List ls => fillItems acc fname ls
/-- The loop of the `Initializer::List` arm of `fill`. -/
def fillItems (acc : List (String × MyExpression)) (fname : String)
    (ls : InitializerItems) : List (String × MyExpression) :=
  match ls with
  | .nil => acc
  | .cons _ l rest => fillItems (fill acc fname l) fname rest
end

/-- `visit_struct_type` from the source: entering a struct type node with
a tag identifier sets the current-tag context; without one it leaves the
state untouched. -/
def visit_struct_type (s : MyVisitor) (n : StructType) : MyVisitor :=
  match n.identifier with
  | some id => { s with cur_struct := some id }
  | none => s

/-- The body of the `DeclaratorKind::Identifier` arm of
`visit_struct_field`: look up or create the catalog entry for `tag` and
push the field name. -/
def pushField (m : List (String × MyStructType)) (tag : String)
    (fieldName : String) : List (String × MyStructType) :=
  let cur := (alFind m tag).getD (MyStructType.new tag)
  alSet m tag { cur with fields := cur.fields ++ [fieldName] }

/-- One iteration of the declarator loop of `visit_struct_field`: only
simple identifier declarators are recorded. -/
def recordFieldDecl (m : List (String × MyStructType)) (tag : String)
    (d : StructDeclarator) : List (String × MyStructType) :=
  match d.declarator with
  | some x =>
    match x.kind with
    | .Identifier y => pushField m tag y
    | _ => m
  | none => m

/-- `visit_struct_field` from the source: with a current tag, record each
identifier declarator's name under that tag; with no current tag, emit
one warning and change nothing else. -/
def visit_struct_field (s : MyVisitor) (n : StructField) : MyVisitor :=
  match s.cur_struct with
  | some tag =>
    { s with
      struct_types := n.declarators.foldl (fun m d => recordFieldDecl m tag d) s.struct_types }
  | none => { s with warnings := s.warnings + 1 }

/-- The zip-and-fill loop of the list-initializer arm of
`visit_init_declarator`: pair items with field names to the shorter of
the two sequences, filling bindings in order. -/
def fillZip (acc : List (String × MyExpression)) (items : InitializerItems)
    (fields : List String) : List (String × MyExpression) :=
  match items, fields with
  | .cons _ x rest, fname :: fs => fillZip (fill acc fname x) rest fs
  | _, _ => acc

/-- `visit_init_declarator` from the source.  A non-identifier declarator
kind panics.  With an identifier and a list initializer: nothing happens
without a current tag; with one, the value entry is looked up or created
(`entry().or_insert()`, expanded here into the three possible entry
states: existing scalar, existing struct, absent), and if the entry is a
struct instance the struct type is looked up (panicking if absent) and
the zip-and-fill bindings are appended to its values.  With an expression
initializer, a scalar value is inserted only if the key is absent. -/
def visit_init_declarator (s : MyVisitor) (n : InitDeclarator) :
    Except Panic MyVisitor :=
  match n.declarator.kind with
  | .Identifier name =>
    match n.initializer with
    | none => .ok s
    | some ini =>
      match ini with
      | .List xs =>
        match s.cur_struct with
        | none => .ok s
        | some struct_name =>
          match alFind s.values (s.cur_struct, name) with
          | some (.Scalar _ _) => .ok s
          | some (.Struct mst) =>
            match alFind s.struct_types struct_name with
            | none => .error (.StructTypeNotFound struct_name)
            | some stype =>
              .ok { s with
                values := alSet s.values (s.cur_struct, name)
                  (.Struct { mst with values := fillZip mst.values xs stype.fields }) }
          | none =>
            match alFind s.struct_types struct_name with
            | none => .error (.StructTypeNotFound struct_name)
            | some stype =>
              .ok { s with
                values := alSet s.values (s.cur_struct, name)
                  (.Struct { typ := struct_name, name := name,
                             values := fillZip [] xs stype.fields }) }
      | .Expression e =>
        match alFind s.values (s.cur_struct, name) with
        | some _ => .ok s
        | none =>
          .ok { s with
            values := alSet s.values (s.cur_struct, name) (MyValue.new_scalar name (transform e)) }
  | k => .error (.ExpectedIdentifier k)

/-- One visitor event of the traversal: the driver fires these hooks in
depth-first order; all other node kinds are descended into without side
effects. -/
inductive Event where
  | structType (n : StructType)
  | structField (n : StructField)
  | initDeclarator (n : InitDeclarator)

/-- One step of the traversal: dispatch an event to its hook; a panic
aborts. -/
def step (s : MyVisitor) (e : Event) : Except Panic MyVisitor :=
  match e with
  | .structType n => .ok (visit_struct_type s n)
  | .structField n => .ok (visit_struct_field s n)
  | .initDeclarator n => visit_init_declarator s n

/-- The traversal driver: fold the hook events over the state; the first
panic terminates the whole run with no partial result. -/
def run (s : MyVisitor) : List Event → Except Panic MyVisitor
  | [] => .ok s
  | e :: rest =>
    match step s e with
    | .ok s2 => run s2 rest
    | .error p => .error p

mutual
/-- The leaf expressions of an initializer, in traversal order. -/
def leaves : Initializer → List Expression
  | .Expression e => [e]
  | .List ls => leavesItems ls
/-- The leaf expressions of an item list, in traversal order. -/
def leavesItems : InitializerItems → List Expression
  | .nil => []
  | .cons _ l rest => leaves l ++ leavesItems rest
end

mutual
/-- Erase every designation in an initializer, keeping its structure. -/
def stripDesig : Initializer → Initializer
  | .Expression e => .Expression e
  | .List ls => .List (stripDesigItems ls)
/-- Erase every designation in an item list. -/
def stripDesigItems : InitializerItems → InitializerItems
  | .nil => .nil
  | .cons _ l rest => .cons [] (stripDesig l) (stripDesigItems rest)
end

/-- Erase every designation in an init declarator's initializer. -/
def stripInitDecl (n : InitDeclarator) : InitDeclarator :=
  { n with initializer := n.initializer.map stripDesig }

/-- The tag identifier an event would assign to the current-tag context,
if any. -/
def eventTag : Event → Option String
  | .structType n => n.identifier
  | _ => none

/-- The identifier name of a struct declarator, when it has one. -/
def declName (d : StructDeclarator) : Option String :=
  match d.declarator with
  | some x =>
    match x.kind with
    | .Identifier y => some y
    | _ => none
  | none => none

/-- The identifier field names a struct field node contributes, in
order. -/
def fieldNames (n : StructField) : List String :=
  n.declarators.filterMap declName

/-- Shorthand: an integer-constant expression node. -/
def exInt (n : String) : Expression := .Constant (.Integer n)

/-- Shorthand: a one-item initializer list with no designation. -/
def item1 (i : Initializer) : InitializerItems := .cons [] i .nil

/-- A state in which struct `S` with fields `a, b, c` has been
catalogued and the current tag is `S`. -/
def stateS : MyVisitor :=
  { cur_struct := some "S",
    struct_types := [("S", { name := "S", fields := ["a", "b", "c"] })],
    values := [], warnings := 0 }

/-- The initializer `{1, 2}`. -/
def iniOneTwo : Initializer :=
  .List (.cons [] (.Expression (exInt "1")) (.cons [] (.Expression (exInt "2")) .nil))

/-- The initializer `{{1, 2}, 3}`. -/
def iniNested : Initializer :=
  .List (.cons [] iniOneTwo (.cons [] (.Expression (exInt "3")) .nil))

/-- The declarator `x = {{1, 2}, 3}`. -/
def declX : InitDeclarator :=
  { declarator := { kind := .Identifier "x" }, initializer := some iniNested }

/-- The struct instance the extraction is expected to record for
`S x = {{1, 2}, 3}`. -/
def instX : MyStruct :=
  { typ := "S", name := "x",
    values := [("a", .Integer "1"), ("a", .Integer "2"), ("b", .Integer "3")] }

/-- The declarator `y = {1, 2}`. -/
def declY : InitDeclarator :=
  { declarator := { kind := .Identifier "y" }, initializer := some iniOneTwo }

/-- The struct instance the extraction is expected to record for
`S y = {1, 2}`: field `c` is absent. -/
def instY : MyStruct :=
  { typ := "S", name := "y",
    values := [("a", .Integer "1"), ("b", .Integer "2")] }

/-- The initializer `{1, 2, 3, 4}`. -/
def iniFour : Initializer :=
  .List (.cons [] (.Expression (exInt "1"))
    (.cons [] (.Expression (exInt "2"))
      (.cons [] (.Expression (exInt "3"))
        (.cons [] (.Expression (exInt "4")) .nil))))

/-- The declarator `z = {1, 2, 3, 4}`. -/
def declZ : InitDeclarator :=
  { declarator := { kind := .Identifier "z" }, initializer := some iniFour }

/-- The struct instance the extraction is expected to record for
`S z = {1, 2, 3, 4}`: the excess element `4` is dropped. -/
def instZ : MyStruct :=
  { typ := "S", name := "z",
    values := [("a", .Integer "1"), ("b", .Integer "2"), ("c", .Integer "3")] }

/-- The designated initializer `{.c = 1, .b = 2}`. -/
def iniDesignated : Initializer :=
  .List (.cons [Designator.Member "c"] (.Expression (exInt "1"))
    (.cons [Designator.Member "b"] (.Expression (exInt "2")) .nil))

/-- The declarator `w = {.c = 1, .b = 2}`. -/
def declW : InitDeclarator :=
  { declarator := { kind := .Identifier "w" }, initializer := some iniDesignated }

/-- The struct instance the extraction is expected to record for
`S w = {.c = 1, .b = 2}`: the designators are ignored and binding is
purely positional. -/
def instW : MyStruct :=
  { typ := "S", name := "w",
    values := [("a", .Integer "1"), ("b", .Integer "2")] }

/-- The scalar declarator `n = 5`. -/
def declN5 : InitDeclarator :=
  { declarator := { kind := .Identifier "n" },
    initializer := some (.Expression (exInt "5")) }

/-- The scalar declarator `n = 7`. -/
def declN7 : InitDeclarator :=
  { declarator := { kind := .Identifier "n" },
    initializer := some (.Expression (exInt "7")) }

/-- The braced declarator `n = {1}`. -/
def declNList : InitDeclarator :=
  { declarator := { kind := .Identifier "n" },
    initializer := some (.List (item1 (.Expression (exInt "1")))) }

/-- The event trace `struct U; int n = 5; int n = {1};`: a tagged struct
type node with no fields, then a scalar declarator, then a braced
declarator for the same name under the same context key. -/
def traceU : List Event :=
  [.structType { identifier := some "U" },
   .initDeclarator declN5,
   .initDeclarator declNList]

/-- The state after the first two events of `traceU`: current tag `U`,
empty struct type catalog, a scalar at key `(some U, n)`. -/
def stateU : MyVisitor :=
  { cur_struct := some "U",
    struct_types := [],
    values := [((some "U", "n"), .Scalar "n" (.Integer "5"))],
    warnings := 0 }

/-- A state with current tag `U` and both catalogs empty. -/
def stateUEmpty : MyVisitor :=
  { cur_struct := some "U", struct_types := [], values := [], warnings := 0 }

/-- A declarator whose name form is not a simple identifier
(an abstract declarator), carrying an initializer. -/
def declAbs : InitDeclarator :=
  { declarator := { kind := .Abstract },
    initializer := some (.Expression (exInt "1")) }

/-- A state with current tag `T` and both catalogs empty. -/
def stateT : MyVisitor :=
  { cur_struct := some "T", struct_types := [], values := [], warnings := 0 }

/-- A struct field node declaring the single identifier field `a`. -/
def fieldA : StructField :=
  { declarators := [{ declarator := some { kind := .Identifier "a" } }] }

/-- The expected state after processing `S x = {{1, 2}, 3}` in `stateS`. -/
def afterX : MyVisitor :=
  { stateS with values := [((some "S", "x"), .Struct instX)] }

/-- The expected state after processing `S y = {1, 2}` in `stateS`. -/
def afterY : MyVisitor :=
  { stateS with values := [((some "S", "y"), .Struct instY)] }

/-- The expected state after processing `S z = {1, 2, 3, 4}` in
`stateS`. -/
def afterZ : MyVisitor :=
  { stateS with values := [((some "S", "z"), .Struct instZ)] }

/-- The expected state after processing `S w = {.c = 1, .b = 2}` in
`stateS`. -/
def afterW : MyVisitor :=
  { stateS with values := [((some "S", "w"), .Struct instW)] }

/-- The expected state after processing `int n = 5;` from a fresh
visitor. -/
def stateN5 : MyVisitor :=
  { MyVisitor.new with values := [((none, "n"), .Scalar "n" (.Integer "5"))] }

/-- The recorded field names of a tag in a struct type catalog (empty
when the tag has no entry). -/
def fieldsOfMap (m : List (String × MyStructType)) (tag : String) : List String :=
  ((alFind m tag).map MyStructType.fields).getD []

/-- An event trace containing no tagged struct type node: a field, a
scalar declarator, and an untagged struct type node. -/
def esNoTag : List Event :=
  [.structField fieldA, .initDeclarator declN5, .structType { identifier := none }]

/-- The expected state after running `esNoTag` from `stateT`. -/
def afterNoTag : MyVisitor :=
  { cur_struct := some "T",
    struct_types := [("T", { name := "T", fields := ["a"] })],
    values := [((some "T", "n"), .Scalar "n" (.Integer "5"))],
    warnings := 0 }

theorem alFind_alSet_self {α β : Type} [DecidableEq α] (m : List (α × β)) (k : α) (v : β) :
    alFind (alSet m k v) k = some v := by
  induction m with
  | nil => simp [alSet, alFind]
  | cons p rest ih =>
    obtain ⟨a, b⟩ := p
    by_cases h : a = k <;> simp [alSet, alFind, h, ih]

mutual
theorem fill_eq_leaves (acc : List (String × MyExpression)) (fname : String)
    (ini : Initializer) :
    fill acc fname ini = acc ++ (leaves ini).map (fun e => (fname, transform e)) := by
  match ini with
  | .Expression e => simp [fill, leaves]
  | .List ls => simpa [fill, leaves] using fillItems_eq_leaves acc fname ls
theorem fillItems_eq_leaves (acc : List (String × MyExpression)) (fname : String)
    (ls : InitializerItems) :
    fillItems acc fname ls = acc ++ (leavesItems ls).map (fun e => (fname, transform e)) := by
  match ls with
  | .nil => simp [fillItems, leavesItems]
  | .cons d l rest =>
    rw [fillItems, leavesItems, fillItems_eq_leaves (fill acc fname l) fname rest,
      fill_eq_leaves acc fname l]
    simp
end

mutual
theorem fill_stripDesig (acc : List (String × MyExpression)) (fname : String)
    (ini : Initializer) : fill acc fname (stripDesig ini) = fill acc fname ini := by
  match ini with
  | .Expression e => rfl
  | .List ls =>
    rw [stripDesig, fill, fill]
    exact fillItems_stripDesig acc fname ls
theorem fillItems_stripDesig (acc : List (String × MyExpression)) (fname : String)
    (ls : InitializerItems) :
    fillItems acc fname (stripDesigItems ls) = fillItems acc fname ls := by
  match ls with
  | .nil => rfl
  | .cons d l rest =>
    rw [stripDesigItems, fillItems, fillItems, fill_stripDesig acc fname l]
    exact fillItems_stripDesig (fill acc fname l) fname rest
end

theorem fillZip_stripDesigItems (acc : List (String × MyExpression))
    (items : InitializerItems) (fields : List String) :
    fillZip acc (stripDesigItems items) fields = fillZip acc items fields := by
  match items, fields with
  | .nil, fs => rfl
  | .cons d l rest, [] => rfl
  | .cons d l rest, f :: fs =>
    rw [stripDesigItems, fillZip, fillZip, fill_stripDesig acc f l]
    exact fillZip_stripDesigItems (fill acc f l) rest fs

theorem visit_struct_field_cur (s : MyVisitor) (n : StructField) :
    (visit_struct_field s n).cur_struct = s.cur_struct := by
  cases h : s.cur_struct <;> simp [visit_struct_field, h]

theorem visit_init_declarator_ok_cur (s : MyVisitor) (n : InitDeclarator)
    (s2 : MyVisitor) (h : visit_init_declarator s n = .ok s2) :
    s2.cur_struct = s.cur_struct := by
  obtain ⟨⟨kd⟩, ini⟩ := n
  cases kd with
  | Abstract => exact Except.noConfusion h
  | Declarator inner => exact Except.noConfusion h
  | Identifier nm =>
    cases ini with
    | none => cases Except.ok.inj h; rfl
    | some i =>
      cases i with
      | Expression e =>
        simp only [visit_init_declarator] at h
        repeat' split at h
        all_goals first
        | exact Except.noConfusion h
        | (cases Except.ok.inj h; rfl)
      | List xs =>
        simp only [visit_init_declarator] at h
        repeat' split at h
        all_goals first
        | exact Except.noConfusion h
        | (cases Except.ok.inj h; rfl)


theorem run_ok_cur (es : List Event) : ∀ (s s2 : MyVisitor),
    run s es = .ok s2 → (∀ e ∈ es, eventTag e = none) →
    s2.cur_struct = s.cur_struct := by
  induction es with
  | nil =>
    intro s s2 h _
    cases Except.ok.inj h
    rfl
  | cons e rest ih =>
    intro s s2 h hall
    rw [run] at h
    cases hstep : step s e with
    | error p => rw [hstep] at h; exact Except.noConfusion h
    | ok s1 =>
      rw [hstep] at h
      have h1 : s1.cur_struct = s.cur_struct := by
        cases e with
        | structType n =>
          have ht : n.identifier = none := hall _ (List.mem_cons_self _ _)
          have : visit_struct_type s n = s1 := Except.ok.inj hstep
          rw [← this, visit_struct_type, ht]
        | structField n =>
          have : visit_struct_field s n = s1 := Except.ok.inj hstep
          rw [← this, visit_struct_field_cur]
        | initDeclarator n =>
          exact visit_init_declarator_ok_cur s n s1 hstep
      have h2 := ih s1 s2 h (fun x hx => hall x (List.mem_cons_of_mem _ hx))
      rw [h2, h1]

theorem fieldsOfMap_pushField (m : List (String × MyStructType)) (tag y : String) :
    fieldsOfMap (pushField m tag y) tag = fieldsOfMap m tag ++ [y] := by
  unfold pushField fieldsOfMap
  rw [alFind_alSet_self]
  cases h : alFind m tag <;> simp [h, MyStructType.new]

theorem fieldsOfMap_recordFieldDecl (m : List (String × MyStructType)) (tag : String)
    (d : StructDeclarator) :
    fieldsOfMap (recordFieldDecl m tag d) tag =
      fieldsOfMap m tag ++ (declName d).toList := by
  unfold recordFieldDecl declName
  cases hd : d.declarator with
  | none => simp
  | some x =>
    cases hk : x.kind <;> simp [hk, fieldsOfMap_pushField]

theorem fieldsOfMap_foldl_record (ds : List StructDeclarator) : ∀ (m : List (String × MyStructType)) (tag : String),
    fieldsOfMap (ds.foldl (fun m d => recordFieldDecl m tag d) m) tag =
      fieldsOfMap m tag ++ ds.filterMap declName := by
  induction ds with
  | nil => intro m tag; simp
  | cons d rest ih =>
    intro m tag
    rw [List.foldl_cons, ih, fieldsOfMap_recordFieldDecl, List.filterMap_cons]
    cases h : declName d <;> simp [h]

theorem visit_init_declarator_strip (s : MyVisitor) (n : InitDeclarator) :
    visit_init_declarator s (stripInitDecl n) = visit_init_declarator s n := by
  obtain ⟨⟨kd⟩, ini⟩ := n
  cases kd with
  | Abstract => rfl
  | Declarator inner => rfl
  | Identifier nm =>
    cases ini with
    | none => rfl
    | some i =>
      cases i with
      | Expression e => rfl
      | List xs =>
        show visit_init_declarator s ⟨⟨.Identifier nm⟩, some (.List (stripDesigItems xs))⟩ =
          visit_init_declarator s ⟨⟨.Identifier nm⟩, some (.List xs)⟩
        simp only [visit_init_declarator]
        repeat' split
        all_goals first
        | rfl
        | rw [fillZip_stripDesigItems]

/-- C1: flattening a struct-instance initializer recurses into every
nested brace-initializer and appends one `(field_name, simplified leaf)`
binding per leaf, reusing the same outer field name for every leaf of the
nested group; concretely, `S x = {{1,2}, 3}` against fields `[a, b, c]`
yields `field_bindings = [(a, Integer "1"), (a, Integer "2"),
(b, Integer "3")]`. -/
theorem C1_flatten_nested_leaves :
    (∀ (acc : List (String × MyExpression)) (fname : String) (ini : Initializer),
      fill acc fname ini = acc ++ (leaves ini).map (fun e => (fname, transform e))) ∧
    visit_init_declarator stateS declX = .ok afterX :=
  ⟨fill_eq_leaves, rfl⟩

/-- C2: top-level initializer elements are paired with the struct's field
names purely positionally with zip-to-shortest truncation, and
designators are ignored: erasing every designation never changes the
result; `S y = {1,2}` against `[a, b, c]` binds exactly `a` and `b`,
`S z = {1,2,3,4}` drops the excess element, and
`S w = {.c = 1, .b = 2}` still binds positionally to `a` then `b`. -/
theorem C2_positional_zip_truncation :
    (∀ (s : MyVisitor) (n : InitDeclarator),
      visit_init_declarator s (stripInitDecl n) = visit_init_declarator s n) ∧
    visit_init_declarator stateS declY = .ok afterY ∧
    visit_init_declarator stateS declZ = .ok afterZ ∧
    visit_init_declarator stateS declW = .ok afterW :=
  ⟨visit_init_declarator_strip, rfl, rfl, rfl⟩

/-- C3: the expression simplifier is a total function mapping an integer
constant `0x1A` to `Integer "0x1A"`, a float `3.14f` to `Float "3.14f"`,
a character constant `x` to the character-text variant, a string literal
`"hi"` to `StringLiteral ["hi"]` keeping each adjacent fragment as a
separate ordered element, and a function-call expression to `Other`
holding non-empty debug text. -/
theorem C3_transform_simplifier :
    transform (.Constant (.Integer "0x1A")) = .Integer "0x1A" ∧
    transform (.Constant (.Float "3.14f")) = .Float "3.14f" ∧
    transform (.Constant (.Character "x")) = .String "x" ∧
    transform (.StringLiteral ["hi"]) = .StringLiteral ["hi"] ∧
    (∀ parts : List String, transform (.StringLiteral parts) = .StringLiteral parts) ∧
    (∀ p : String, transform (.Call p) = .Other ("Call(" ++ p ++ ")") ∧
      ("Call(" ++ p ++ ")") ≠ "") := by
  refine ⟨rfl, rfl, rfl, rfl, fun _ => rfl, fun p => ⟨rfl, ?_⟩⟩
  intro h
  have h2 : ("Call(" ++ p ++ ")").length = ("" : String).length := by rw [h]
  rw [String.length_append, String.length_append] at h2
  have h5 : ("Call(" : String).length = 5 := rfl
  have h6 : (")" : String).length = 1 := rfl
  have h0 : ("" : String).length = 0 := rfl
  rw [h5, h6, h0] at h2
  omega

/-- C4 (counterexample): along the reachable trace
`struct U; int n = 5; int n = {1};` the third declarator carries a brace
initializer, the current tag is `U`, and `U` is absent from the struct
type catalog, yet the run does not abort: the pre-existing scalar entry
at the key `(some U, n)` makes the struct-type lookup unreachable. -/
theorem C4_missing_type_counterexample :
    run MyVisitor.new traceU = .ok stateU ∧
    stateU.cur_struct = some "U" ∧
    alFind stateU.struct_types "U" = none ∧
    declNList.declarator.kind = .Identifier "n" ∧
    declNList.initializer = some (.List (item1 (.Expression (exInt "1")))) ∧
    visit_init_declarator stateU declNList = .ok stateU :=
  ⟨rfl, rfl, rfl, rfl, rfl, rfl⟩

/-- C4 (amended): for a variable declarator with a brace initializer
processed while a current struct tag is set and absent from the struct
type catalog, the extraction aborts fatally unless the value catalog
already holds a scalar entry at the key (current tag, declarator name),
in which case the visit returns the state unchanged. -/
theorem C4_missing_type_amended (s : MyVisitor) (n : InitDeclarator)
    (name tag : String) (xs : InitializerItems)
    (hk : n.declarator.kind = .Identifier name)
    (hi : n.initializer = some (.List xs))
    (hc : s.cur_struct = some tag)
    (ht : alFind s.struct_types tag = none) :
    ((∃ a b, alFind s.values (some tag, name) = some (.Scalar a b)) →
      visit_init_declarator s n = .ok s) ∧
    ((∀ a b, alFind s.values (some tag, name) ≠ some (.Scalar a b)) →
      visit_init_declarator s n = .error (.StructTypeNotFound tag)) := by
  constructor
  · rintro ⟨a, b, hv⟩
    simp [visit_init_declarator, hk, hi, hc, hv]
  · intro hv
    simp only [visit_init_declarator, hk, hi, hc]
    cases hfind : alFind s.values (some tag, name) with
    | none => simp [ht]
    | some v =>
      cases v with
      | Scalar a b => exact absurd hfind (hv a b)
      | Struct mst => simp [ht]

/-- C4 (witness for the amended claim): with the scalar entry present the
visit is a no-op, and with the value catalog empty the same declarator
aborts with the missing-type panic. -/
theorem C4_missing_type_witness :
    visit_init_declarator stateU declNList = .ok stateU ∧
    visit_init_declarator stateUEmpty declNList = .error (.StructTypeNotFound "U") := by
  constructor
  · exact (C4_missing_type_amended stateU declNList "n" "U"
      (item1 (.Expression (exInt "1"))) rfl rfl rfl rfl).1 ⟨"n", .Integer "5", rfl⟩
  · exact (C4_missing_type_amended stateUEmpty declNList "n" "U"
      (item1 (.Expression (exInt "1"))) rfl rfl rfl rfl).2
      (fun a b h => by simp [stateUEmpty, alFind] at h)

/-- C5: a variable declarator carrying an initializer aborts with the
expected-identifier panic exactly when its name form is not a simple
identifier; no identifier-shaped declarator ever triggers this abort. -/
theorem C5_non_identifier_abort (s : MyVisitor) (n : InitDeclarator)
    (i : Initializer) (hi : n.initializer = some i) :
    (∀ nm, n.declarator.kind ≠ .Identifier nm) ↔
      ∃ k, visit_init_declarator s n = .error (.ExpectedIdentifier k) := by
  constructor
  · intro h
    refine ⟨n.declarator.kind, ?_⟩
    cases hk : n.declarator.kind with
    | Identifier nm => exact absurd hk (h nm)
    | Abstract => simp [visit_init_declarator, hk]
    | Declarator inner => simp [visit_init_declarator, hk]
  · rintro ⟨k, hk⟩ nm hnm
    cases i with
    | Expression e =>
      simp only [visit_init_declarator, hnm, hi] at hk
      repeat' split at hk
      all_goals exact Except.noConfusion hk
    | List xs =>
      simp only [visit_init_declarator, hnm, hi] at hk
      repeat' split at hk
      all_goals first
      | exact Except.noConfusion hk
      | (injection hk with h2; exact Panic.noConfusion h2)

/-- C5 (witness): an abstract declarator carrying an initializer aborts
with the expected-identifier panic. -/
theorem C5_non_identifier_abort_witness :
    ∃ k, visit_init_declarator MyVisitor.new declAbs = .error (.ExpectedIdentifier k) :=
  (C5_non_identifier_abort MyVisitor.new declAbs (.Expression (exInt "1")) rfl).mp
    (fun nm h => by simp [declAbs] at h)

/-- C6: a scalar declaration inserts its value only when the key
(current tag, name) is absent — first write wins; concretely,
`int n = 5;` followed by `int n = 7;` under the same context key retains
`Integer "5"`. -/
theorem C6_scalar_first_write_wins :
    (∀ (s : MyVisitor) (n : InitDeclarator) (name : String) (e : Expression)
      (v : MyValue),
      n.declarator.kind = .Identifier name →
      n.initializer = some (.Expression e) →
      alFind s.values (s.cur_struct, name) = some v →
      visit_init_declarator s n = .ok s) ∧
    run MyVisitor.new [.initDeclarator declN5, .initDeclarator declN7] = .ok stateN5 := by
  constructor
  · intro s n name e v hk hi hv
    simp [visit_init_declarator, hk, hi, hv]
  · rfl

/-- C6 (witness): visiting `n = 7` in the state where the key
`(none, n)` already holds `Integer "5"` leaves the state unchanged. -/
theorem C6_scalar_first_write_wins_witness :
    visit_init_declarator stateN5 declN7 = .ok stateN5 :=
  C6_scalar_first_write_wins.1 stateN5 declN7 "n" (exInt "7")
    (.Scalar "n" (.Integer "5")) rfl rfl rfl

/-- C7: a field declarator visited while no struct tag is active mutates
neither catalog, leaves the context untouched, emits exactly one
warning-level diagnostic, and the traversal continues. -/
theorem C7_field_without_tag_warning (s : MyVisitor) (n : StructField)
    (h : s.cur_struct = none) :
    visit_struct_field s n = { s with warnings := s.warnings + 1 } := by
  simp [visit_struct_field, h]

/-- C7 (witness): a field seen from the fresh state produces exactly one
warning and nothing else. -/
theorem C7_field_without_tag_warning_witness :
    visit_struct_field MyVisitor.new fieldA =
      { MyVisitor.new with warnings := MyVisitor.new.warnings + 1 } :=
  C7_field_without_tag_warning MyVisitor.new fieldA rfl

/-- C8: the current-tag context is assigned exactly by entering a struct
type node carrying a tag identifier; an untagged struct type node leaves
the whole state unchanged, and a run containing no tagged struct type
event — whatever fields, declarators, or untagged struct types it
visits — preserves the current tag, which is never cleared or restored. -/
theorem C8_cur_struct_persistence :
    (∀ (s : MyVisitor) (n : StructType) (t : String),
      n.identifier = some t →
      visit_struct_type s n = { s with cur_struct := some t }) ∧
    (∀ (s : MyVisitor) (n : StructType),
      n.identifier = none → visit_struct_type s n = s) ∧
    (∀ (s s2 : MyVisitor) (es : List Event),
      run s es = .ok s2 → (∀ e ∈ es, eventTag e = none) →
      s2.cur_struct = s.cur_struct) := by
  refine ⟨?_, ?_, ?_⟩
  · intro s n t h
    simp [visit_struct_type, h]
  · intro s n h
    simp [visit_struct_type, h]
  · intro s s2 es h hall
    exact run_ok_cur es s s2 h hall

/-- C8 (witness): entering `struct S` sets the tag to `S`, an untagged
struct type node changes nothing, and a run over a field, a scalar
declarator and an untagged struct type node keeps the tag `T`. -/
theorem C8_cur_struct_persistence_witness :
    visit_struct_type stateT { identifier := some "S" } =
      { stateT with cur_struct := some "S" } ∧
    visit_struct_type stateT { identifier := none } = stateT ∧
    afterNoTag.cur_struct = stateT.cur_struct := by
  refine ⟨C8_cur_struct_persistence.1 stateT { identifier := some "S" } "S" rfl,
    C8_cur_struct_persistence.2.1 stateT { identifier := none } rfl,
    C8_cur_struct_persistence.2.2 stateT afterNoTag esNoTag rfl ?_⟩
  intro e he
  simp only [esNoTag, List.mem_cons, List.not_mem_nil, or_false] at he
  rcases he with rfl | rfl | rfl <;> rfl

/-- C9: recording fields under a present tag appends the field names to
that tag's ordered sequence (creating the entry on first use), so
repeated visits of the same struct field node append again; visiting the
single-field node `a` twice under tag `T` yields the duplicated sequence
`[a, a]`. -/
theorem C9_field_append_duplicates :
    (∀ (s : MyVisitor) (n : StructField) (tag : String),
      s.cur_struct = some tag →
      fieldsOfMap (visit_struct_field s n).struct_types tag =
        fieldsOfMap s.struct_types tag ++ fieldNames n) ∧
    (∀ (s : MyVisitor) (n : StructField) (tag : String),
      s.cur_struct = some tag →
      fieldsOfMap (visit_struct_field (visit_struct_field s n) n).struct_types tag =
        fieldsOfMap s.struct_types tag ++ fieldNames n ++ fieldNames n) ∧
    fieldsOfMap (visit_struct_field (visit_struct_field stateT fieldA) fieldA).struct_types "T" =
      ["a", "a"] := by
  have h1 : ∀ (s : MyVisitor) (n : StructField) (tag : String),
      s.cur_struct = some tag →
      fieldsOfMap (visit_struct_field s n).struct_types tag =
        fieldsOfMap s.struct_types tag ++ fieldNames n := by
    intro s n tag hc
    simp only [visit_struct_field, hc, fieldNames]
    exact fieldsOfMap_foldl_record n.declarators s.struct_types tag
  refine ⟨h1, ?_, rfl⟩
  intro s n tag hc
  have hc2 : (visit_struct_field s n).cur_struct = some tag := by
    rw [visit_struct_field_cur, hc]
  rw [h1 (visit_struct_field s n) n tag hc2, h1 s n tag hc]

/-- C9 (witness): one visit of field `a` under tag `T` appends `[a]`, and
a second visit appends `[a]` again. -/
theorem C9_field_append_duplicates_witness :
    fieldsOfMap (visit_struct_field stateT fieldA).struct_types "T" =
      fieldsOfMap stateT.struct_types "T" ++ fieldNames fieldA ∧
    fieldsOfMap (visit_struct_field (visit_struct_field stateT fieldA) fieldA).struct_types "T" =
      fieldsOfMap stateT.struct_types "T" ++ fieldNames fieldA ++ fieldNames fieldA :=
  ⟨C9_field_append_duplicates.1 stateT fieldA "T" rfl,
   C9_field_append_duplicates.2.1 stateT fieldA "T" rfl⟩

/-- C10: a variable declarator with a brace initializer visited while no
current struct tag is set is a complete silent no-op: the state — both
catalogs and the warning count — is returned unchanged and no abort
occurs. -/
theorem C10_list_without_tag_noop (s : MyVisitor) (n : InitDeclarator)
    (name : String) (xs : InitializerItems)
    (hk : n.declarator.kind = .Identifier name)
    (hi : n.initializer = some (.List xs))
    (hc : s.cur_struct = none) :
    visit_init_declarator s n = .ok s := by
  simp [visit_init_declarator, hk, hi, hc]

/-- C10 (witness): `int n = {1};` visited from the fresh state (no tag)
returns the state unchanged. -/
theorem C10_list_without_tag_noop_witness :
    visit_init_declarator MyVisitor.new declNList = .ok MyVisitor.new :=
  C10_list_without_tag_noop MyVisitor.new declNList "n"
    (item1 (.Expression (exInt "1"))) rfl rfl rfl

end CAst
